import Mathlib

/-!
Verification development for the microgrid power-control layer.

The `PowerWrapper` start/stop logic, its broadcast-channel construction and
the constructor call sites are embedded from
`src/frequenz/sdk/microgrid/_power_wrapper.py` and
`examples/battery_status.py`.  The priority power-resolution engine, the
component-availability tracker state machine and the broadcast-channel
delivery semantics are modelled from the system specification (their
implementation modules are not part of this excerpt); the two resolution
scenarios of the `microgrid` module docstring serve as executable checks of
that model.
-/

set_option autoImplicit false

/-- Component categories, embedded from `frequenz.client.microgrid.ComponentCategory`
(only the constructors the excerpt mentions are needed). -/
inductive ComponentCategory where
  | battery
  | ev_charger
  | inverter
  | meter
  deriving DecidableEq

/-- Component sub-types, embedded from `frequenz.client.microgrid.ComponentType`
(used to tell a solar inverter from a battery inverter). -/
inductive ComponentType where
  | solar
  | battery_inverter
  deriving DecidableEq

/-- The component topology graph collaborator: the only operation the
`PowerWrapper` uses is `components(component_categories=...)`, a query for the
component ids of a category. -/
structure ComponentGraph where
  components : ComponentCategory → List Nat

/-- A broadcast channel as constructed in `PowerWrapper.__init__`: a name and
the `resend_latest` flag (`False` when the keyword is omitted, as in
`frequenz.channels.Broadcast`). -/
structure Broadcast where
  name : String
  resend_latest : Bool
  deriving DecidableEq

/-- Build a `Broadcast` the way `Broadcast(name=...)` does: `resend_latest`
defaults to `False`. -/
def Broadcast.mkDefault (name : String) : Broadcast :=
  { name := name, resend_latest := false }

/-- The power managing actor, reduced to the construction arguments the
wrapper supplies that are relevant here. -/
structure PowerManagingActor where
  component_category : ComponentCategory
  component_type : Option ComponentType
  deriving DecidableEq

/-- The power distributing actor, reduced to the construction arguments the
wrapper supplies that are relevant here.  `wait_for_data_sec` is a required
field: every construction must supply it. -/
structure PowerDistributingActor where
  component_category : ComponentCategory
  component_type : Option ComponentType
  wait_for_data_sec : ℚ
  deriving DecidableEq

/-- Warnings `PowerWrapper` can log, one per `_logger.warning` call site. -/
inductive LogMessage where
  | no_components_power_managing (category : ComponentCategory)
  | no_components_power_distributing (category : ComponentCategory)
  deriving DecidableEq

/-- Module constant `_POWER_DISTRIBUTING_ACTOR_WAIT_FOR_DATA_SEC = 2.0`. -/
def POWER_DISTRIBUTING_ACTOR_WAIT_FOR_DATA_SEC : ℚ := 2

/-- The mutable state of a `PowerWrapper` instance: the five broadcast
channels, the two optional actor references, the configured
`wait_for_data_sec` and the warnings logged so far. -/
structure PowerWrapper where
  component_category : ComponentCategory
  component_type : Option ComponentType
  status_channel : Broadcast
  power_distribution_requests_channel : Broadcast
  power_distribution_results_channel : Broadcast
  proposal_channel : Broadcast
  bounds_subscription_channel : Broadcast
  power_distributing_actor : Option PowerDistributingActor
  power_managing_actor : Option PowerManagingActor
  pd_wait_for_data_sec : ℚ
  warnings : List LogMessage
  deriving DecidableEq

/-- `PowerWrapper.__init__`: creates the five channels (only the status
channel with `resend_latest=True`), leaves both actor references `None` and
stores the module-level wait-for-data constant. -/
def PowerWrapper.init (component_category : ComponentCategory)
    (component_type : Option ComponentType) : PowerWrapper :=
  { component_category := component_category
    component_type := component_type
    status_channel := { name := "Component Status Channel", resend_latest := true }
    power_distribution_requests_channel :=
      Broadcast.mkDefault "Power Distributing Actor, Requests Broadcast Channel"
    power_distribution_results_channel :=
      Broadcast.mkDefault "Power Distributing Actor, Results Broadcast Channel"
    proposal_channel :=
      Broadcast.mkDefault "Power Managing Actor, Requests Broadcast Channel"
    bounds_subscription_channel :=
      Broadcast.mkDefault "Power Managing Actor, Bounds Subscription Channel"
    power_distributing_actor := none
    power_managing_actor := none
    pd_wait_for_data_sec := POWER_DISTRIBUTING_ACTOR_WAIT_FOR_DATA_SEC
    warnings := [] }

/-- `PowerWrapper._start_power_managing_actor`: return immediately when the
actor already exists; when the component graph has no components of the
configured category, log a warning and do not start the actor; otherwise
construct and start the actor. -/
def PowerWrapper.start_power_managing_actor (g : ComponentGraph)
    (s : PowerWrapper) : PowerWrapper :=
  match s.power_managing_actor with
  | some _ => s
  | none =>
    if (g.components s.component_category).isEmpty then
      { s with warnings :=
          s.warnings ++ [LogMessage.no_components_power_managing s.component_category] }
    else
      { s with
        power_managing_actor :=
          some (PowerManagingActor.mk s.component_category s.component_type) }

/-- `PowerWrapper._start_power_distributing_actor`: return immediately when
the actor already exists; when the component graph has no components of the
configured category, log a warning and do not start the actor; otherwise
construct the actor, supplying `wait_for_data_sec` explicitly from the
wrapper's configured value, and start it. -/
def PowerWrapper.start_power_distributing_actor (g : ComponentGraph)
    (s : PowerWrapper) : PowerWrapper :=
  match s.power_distributing_actor with
  | some _ => s
  | none =>
    if (g.components s.component_category).isEmpty then
      { s with warnings :=
          s.warnings ++ [LogMessage.no_components_power_distributing s.component_category] }
    else
      { s with
        power_distributing_actor :=
          some (PowerDistributingActor.mk s.component_category s.component_type
            s.pd_wait_for_data_sec) }

/-- `PowerWrapper.started`: true iff both actors exist. -/
def PowerWrapper.started (s : PowerWrapper) : Bool :=
  s.power_managing_actor.isSome && s.power_distributing_actor.isSome

/-- `PowerWrapper.start`: return immediately when already started, otherwise
start the power distributing actor and then the power managing actor. -/
def PowerWrapper.start (g : ComponentGraph) (s : PowerWrapper) : PowerWrapper :=
  if s.started then s
  else PowerWrapper.start_power_managing_actor g
    (PowerWrapper.start_power_distributing_actor g s)

/-- The externally visible actions `PowerWrapper.stop` performs. -/
inductive StopEvent where
  | stop_power_distributing_actor
  | stop_power_managing_actor
  deriving DecidableEq

/-- `PowerWrapper.stop`: await `stop()` on the power distributing actor if it
exists, then on the power managing actor if it exists.  The wrapper's fields
(channels and actor references) are not modified; the returned event list
records which actors were stopped, in order. -/
def PowerWrapper.stop (s : PowerWrapper) : PowerWrapper × List StopEvent :=
  (s,
    (if s.power_distributing_actor.isSome
      then [StopEvent.stop_power_distributing_actor] else []) ++
    (if s.power_managing_actor.isSome
      then [StopEvent.stop_power_managing_actor] else []))

/-- The component-availability tracker constructor arguments, as required by
`BatteryPoolStatus(battery_ids=..., max_data_age_sec=..., max_blocking_duration_sec=...)`.
All fields are required: a construction must supply each explicitly. -/
structure BatteryPoolStatus where
  battery_ids : List Nat
  max_data_age_sec : ℚ
  max_blocking_duration_sec : ℚ
  deriving DecidableEq

/-- The construction of `BatteryPoolStatus` in `examples/battery_status.py`,
which passes `max_data_age_sec=5` and `max_blocking_duration_sec=30`
explicitly. -/
def example_batteries_status (batteries : List Nat) : BatteryPoolStatus :=
  { battery_ids := batteries
    max_data_age_sec := 5
    max_blocking_duration_sec := 30 }

/-! ## Broadcast-channel delivery semantics

Modelled from the spec: the `frequenz.channels.Broadcast` delivery behaviour
(one sender, independent receivers, optional resend-latest) is not part of
this excerpt; only its construction sites are.  The model keeps the
`resend_latest` flag, the last published message and one pending queue per
receiver. -/

/-- Modelled from the spec: the runtime state of a broadcast channel — the
`resend_latest` flag, the most recently published message and the pending
queue of every receiver, in creation order. -/
structure BroadcastState (M : Type) where
  resend_latest : Bool
  latest : Option M
  receivers : List (List M)

/-- Modelled from the spec: publishing stores the message as the latest one
and appends it to every receiver's queue, after everything already queued. -/
def BroadcastState.publish {M : Type} (c : BroadcastState M) (m : M) :
    BroadcastState M :=
  { resend_latest := c.resend_latest
    latest := some m
    receivers := c.receivers.map (fun q => q ++ [m]) }

/-- Modelled from the spec: the initial queue of a newly created receiver —
the most recent message when the channel is in resend-latest mode and one
has been published, empty otherwise. -/
def BroadcastState.new_receiver_queue {M : Type} (c : BroadcastState M) :
    List M :=
  if c.resend_latest then
    match c.latest with
    | some m => [m]
    | none => []
  else []

/-- Modelled from the spec: creating a receiver registers its initial queue. -/
def BroadcastState.new_receiver {M : Type} (c : BroadcastState M) :
    BroadcastState M :=
  { resend_latest := c.resend_latest
    latest := c.latest
    receivers := c.receivers ++ [c.new_receiver_queue] }

/-! ## The priority power-resolution engine

Modelled from the spec: the power managing actor's resolution algorithm
(§4.3 of the specification, with the two scenario tables of the `microgrid`
module docstring as its executable description) is not part of this excerpt.
Power values are exact (the scenarios use integral watts). -/

/-- An inclusive power interval `lower..upper`. -/
structure PowerBounds where
  lower : Int
  upper : Int
  deriving DecidableEq

/-- Clamp a power value into the interval. -/
def PowerBounds.clamp (b : PowerBounds) (x : Int) : Int :=
  max b.lower (min b.upper x)

/-- Intersection of two intervals. -/
def PowerBounds.inter (a b : PowerBounds) : PowerBounds :=
  { lower := max a.lower b.lower, upper := min a.upper b.upper }

/-- Shift the interval so that adding `off` afterwards lands back inside the
original interval. -/
def PowerBounds.shift (b : PowerBounds) (off : Int) : PowerBounds :=
  { lower := b.lower - off, upper := b.upper - off }

/-- `a` is contained in `b`. -/
def PowerBounds.subset (a b : PowerBounds) : Prop :=
  b.lower ≤ a.lower ∧ a.upper ≤ b.upper

/-- Modelled from the spec: a power proposal — source, priority (a higher
number is more senior, as in the scenario tables), optional target power,
optional declared bounds, and the shifting-group membership flag. -/
structure Proposal where
  source_id : Nat
  priority : Int
  target_power : Option Int
  bounds : Option PowerBounds
  in_shifting_group : Bool
  deriving DecidableEq

/-- Modelled from the spec: a new proposal from a source replaces that
source's prior proposal; proposals from other sources are kept. -/
def submit_proposal (ps : List Proposal) (p : Proposal) : List Proposal :=
  p :: ps.filter (fun q => q.source_id != p.source_id)

/-- Modelled from the spec: the shifting offset is the sum of the
shifting-group proposals' target powers, a missing target counting as 0. -/
def shifting_offset (ps : List Proposal) : Int :=
  ((ps.filter (fun p => p.in_shifting_group)).map
    (fun p => p.target_power.getD 0)).sum

/-- The proposals that compete on priority (not in the shifting group). -/
def regular_proposals (ps : List Proposal) : List Proposal :=
  ps.filter (fun p => !p.in_shifting_group)

/-- Insert a proposal into a seniority-ordered list (most senior first,
higher priority number more senior; among equal priorities the latest
submission ends up last, so it wins the resolution). -/
def insert_by_seniority (p : Proposal) : List Proposal → List Proposal
  | [] => [p]
  | q :: qs =>
    if q.priority < p.priority then p :: q :: qs
    else q :: insert_by_seniority p qs

/-- Sort proposals most senior first. -/
def sort_by_seniority : List Proposal → List Proposal
  | [] => []
  | p :: ps => insert_by_seniority p (sort_by_seniority ps)

/-- Modelled from the spec: walking the seniority order, each proposal is
paired with its available bounds — the most senior gets the (shifted)
envelope, and each junior gets the senior's available bounds intersected
with the senior's declared bounds, when it declared any. -/
def available_bounds : PowerBounds → List Proposal → List (Proposal × PowerBounds)
  | _, [] => []
  | env, p :: ps =>
    (p, env) ::
      available_bounds
        (match p.bounds with
          | some b => env.inter b
          | none => env) ps

/-- Modelled from the spec: walking the seniority order, every proposal that
specifies a target clamps it into its own available bounds and overrides the
targets of more senior proposals; proposals without a target leave the
current choice unchanged. -/
def resolve_target_from : Option Int → List (Proposal × PowerBounds) → Option Int
  | cur, [] => cur
  | cur, (p, b) :: rest =>
    resolve_target_from
      (match p.target_power with
        | some t => some (b.clamp t)
        | none => cur) rest

/-- Modelled from the spec: full resolution of an active proposal set over a
physical envelope — compute the shifting offset, assign available bounds
tier by tier over the shifted envelope, pick the resolved target and shift
it back by the offset (the offset alone when no regular proposal gives a
target). -/
def resolve (envelope : PowerBounds) (ps : List Proposal) :
    Int × List (Proposal × PowerBounds) :=
  let off := shifting_offset ps
  let tiers :=
    available_bounds (envelope.shift off) (sort_by_seniority (regular_proposals ps))
  ((resolve_target_from none tiers).getD 0 + off, tiers)

/-- The resolved target power for an active proposal set. -/
def resolved_target (envelope : PowerBounds) (ps : List Proposal) : Int :=
  (resolve envelope ps).1

/-- The available bounds the resolution reports for the tier of a given
priority. -/
def bounds_for (envelope : PowerBounds) (ps : List Proposal) (priority : Int) :
    Option PowerBounds :=
  ((resolve envelope ps).2.find? (fun pb => pb.1.priority == priority)).map
    (fun pb => pb.2)

/-- The physical envelope of the documented scenarios: `-3000..3000`. -/
def scenario_envelope : PowerBounds := { lower := -3000, upper := 3000 }

/-- Scenario proposal of priority 3: target 1000, bounds `-4000..2500`. -/
def proposal_priority3 : Proposal :=
  { source_id := 3
    priority := 3
    target_power := some 1000
    bounds := some { lower := -4000, upper := 2500 }
    in_shifting_group := false }

/-- Scenario proposal of priority 2: target 2500, no declared bounds. -/
def proposal_priority2 : Proposal :=
  { source_id := 2
    priority := 2
    target_power := some 2500
    bounds := none
    in_shifting_group := false }

/-- Scenario shifting proposal of priority 1 with the given target. -/
def shifting_proposal (t : Option Int) : Proposal :=
  { source_id := 1
    priority := 1
    target_power := t
    bounds := none
    in_shifting_group := true }

/-- Scenario A of the module docstring: the shifting actor proposes nothing. -/
def scenario_a : List Proposal :=
  [proposal_priority3, proposal_priority2, shifting_proposal none]

/-- Scenario B of the module docstring: the shifting actor proposes -1000. -/
def scenario_b : List Proposal :=
  [proposal_priority3, proposal_priority2, shifting_proposal (some (-1000))]

/-! ## The component-availability tracker

Modelled from the spec: the per-component WORKING/BLOCKED state machine of
§4.1 (the tracker implementation module is not part of this excerpt; only
the `BatteryPoolStatus` construction site is).  Time is an exact number of
seconds. -/

/-- Modelled from the spec: the tracker's configuration. -/
structure TrackerConfig where
  max_data_age_sec : Int
  max_blocking_duration_sec : Int
  deriving DecidableEq

/-- Modelled from the spec: the classification of one component. -/
inductive ComponentState where
  | working
  | blocked (blocked_until : Int)
  deriving DecidableEq

/-- Modelled from the spec: one tracker observation — the current time, the
component's last-seen-data timestamp and whether a failure was reported. -/
structure TrackerInput where
  now : Int
  last_data_timestamp : Int
  failure_report : Bool
  deriving DecidableEq

/-- Modelled from the spec: the blocking condition — stale data
(`now - last_data_timestamp > max_data_age_sec`) or an explicit failure
report. -/
def should_block (cfg : TrackerConfig) (inp : TrackerInput) : Bool :=
  decide (cfg.max_data_age_sec < inp.now - inp.last_data_timestamp) ||
    inp.failure_report

/-- Modelled from the spec: one step of the per-component state machine.  A
WORKING component blocks until `now + max_blocking_duration_sec` when the
condition holds; a BLOCKED component stays blocked until its deadline, then
returns to WORKING, immediately re-entering BLOCKED if the condition
recurs. -/
def tracker_step (cfg : TrackerConfig) (s : ComponentState)
    (inp : TrackerInput) : ComponentState :=
  match s with
  | ComponentState.working =>
    if should_block cfg inp then
      ComponentState.blocked (inp.now + cfg.max_blocking_duration_sec)
    else ComponentState.working
  | ComponentState.blocked bu =>
    if inp.now < bu then ComponentState.blocked bu
    else if should_block cfg inp then
      ComponentState.blocked (inp.now + cfg.max_blocking_duration_sec)
    else ComponentState.working

/-- The classifications a component goes through along a sequence of
observations, one state per observation. -/
def tracker_run (cfg : TrackerConfig) (s : ComponentState) :
    List TrackerInput → List ComponentState
  | [] => []
  | inp :: rest =>
    tracker_step cfg s inp :: tracker_run cfg (tracker_step cfg s inp) rest

/-! ## Helper lemmas -/

theorem PowerBounds.subset_refl (a : PowerBounds) : a.subset a :=
  ⟨le_refl _, le_refl _⟩

theorem PowerBounds.inter_subset_left (a b : PowerBounds) :
    (a.inter b).subset a :=
  ⟨le_max_left _ _, min_le_left _ _⟩

/-- The available-bounds assignment only ever shrinks the running envelope:
adjacent tiers are ordered by inclusion, junior inside senior. -/
theorem available_bounds_chain (l : List Proposal) :
    ∀ env : PowerBounds,
      List.Chain' (fun senior junior => PowerBounds.subset junior.2 senior.2)
        (available_bounds env l) := by
  induction l with
  | nil => intro env; simp [available_bounds]
  | cons p ps ih =>
    intro env
    cases ps with
    | nil => simp [available_bounds]
    | cons q qs =>
      rw [available_bounds, available_bounds, List.chain'_cons]
      constructor
      · cases hb : p.bounds with
        | none => exact PowerBounds.subset_refl env
        | some b => exact PowerBounds.inter_subset_left env b
      · rw [← available_bounds]
        exact ih _

/-- While its deadline has not been reached, a blocked component stays
blocked with the same deadline. -/
theorem tracker_step_blocked (cfg : TrackerConfig) (bu : Int)
    (inp : TrackerInput) (h : inp.now < bu) :
    tracker_step cfg (ComponentState.blocked bu) inp =
      ComponentState.blocked bu := by
  simp [tracker_step, h]

/-! ## Claims -/

/-- C4.  Scenario A: proposals priority 3 (target 1000, bounds -4000..2500),
priority 2 (target 2500, no bounds) and a shifting proposal without a
target, over the envelope -3000..3000, resolve to target 2500, with
available bounds -3000..3000 for priority 3 and -3000..2500 for
priority 2. -/
theorem scenario_a_resolution :
    resolved_target scenario_envelope scenario_a = 2500 ∧
    bounds_for scenario_envelope scenario_a 3 =
      some (PowerBounds.mk (-3000) 3000) ∧
    bounds_for scenario_envelope scenario_a 2 =
      some (PowerBounds.mk (-3000) 2500) := by
  decide

/-- C5.  Scenario B: as scenario A but the shifting proposal targets -1000;
the resolution yields target 1500, available bounds -2000..4000 for
priority 3 and -2000..2500 for priority 2. -/
theorem scenario_b_resolution :
    resolved_target scenario_envelope scenario_b = 1500 ∧
    bounds_for scenario_envelope scenario_b 3 =
      some (PowerBounds.mk (-2000) 4000) ∧
    bounds_for scenario_envelope scenario_b 2 =
      some (PowerBounds.mk (-2000) 2500) := by
  decide

/-- C6.  For every pair of adjacent tiers in the resolution's
available-bounds table, the junior tier's bounds are contained in the senior
tier's bounds, and the most senior tier's bounds are exactly the envelope
shifted by the shifting offset: available bounds tighten monotonically as
seniority decreases. -/
theorem available_bounds_monotone_tightening (envelope : PowerBounds)
    (ps : List Proposal) :
    List.Chain' (fun senior junior => PowerBounds.subset junior.2 senior.2)
      (resolve envelope ps).2 ∧
    ∀ pb ∈ ((resolve envelope ps).2).head?,
      pb.2 = envelope.shift (shifting_offset ps) := by
  constructor
  · exact available_bounds_chain _ _
  · intro pb hpb
    rw [resolve] at hpb
    cases hs : sort_by_seniority (regular_proposals ps) with
    | nil => rw [hs] at hpb; simp [available_bounds] at hpb
    | cons p rest =>
      rw [hs] at hpb
      simp [available_bounds] at hpb
      rw [← hpb]

/-- C7.  Submitting the same proposal twice from the same source leaves the
active proposal table, and hence the resolved target, identical to
submitting it once: a new proposal replaces the prior one from its source,
it does not accumulate. -/
theorem submit_proposal_idempotent (envelope : PowerBounds)
    (ps : List Proposal) (p : Proposal) :
    submit_proposal (submit_proposal ps p) p = submit_proposal ps p ∧
    resolved_target envelope (submit_proposal (submit_proposal ps p) p) =
      resolved_target envelope (submit_proposal ps p) := by
  have h : submit_proposal (submit_proposal ps p) p = submit_proposal ps p := by
    simp [submit_proposal, List.filter_filter]
  exact ⟨h, by rw [h]⟩

/-- C1.  When the component graph has no components of the wrapper's
configured category, `start` leaves both actor references unset (`started`
stays false) and logs one warning per actor (distributing first, then
managing); the call is an ordinary return, not an exception. -/
theorem power_wrapper_start_missing_category (g : ComponentGraph)
    (cat : ComponentCategory) (ct : Option ComponentType)
    (h : g.components cat = []) :
    (PowerWrapper.start g (PowerWrapper.init cat ct)).power_managing_actor = none ∧
    (PowerWrapper.start g (PowerWrapper.init cat ct)).power_distributing_actor = none ∧
    (PowerWrapper.start g (PowerWrapper.init cat ct)).started = false ∧
    (PowerWrapper.start g (PowerWrapper.init cat ct)).warnings =
      [LogMessage.no_components_power_distributing cat,
        LogMessage.no_components_power_managing cat] := by
  simp [PowerWrapper.start, PowerWrapper.init, PowerWrapper.started,
    PowerWrapper.start_power_managing_actor,
    PowerWrapper.start_power_distributing_actor, h]

theorem power_wrapper_start_missing_category_witness :
    (ComponentGraph.mk (fun _ => [])).components ComponentCategory.battery = [] ∧
    ((PowerWrapper.start (ComponentGraph.mk (fun _ => []))
        (PowerWrapper.init ComponentCategory.battery none)).power_managing_actor = none ∧
      (PowerWrapper.start (ComponentGraph.mk (fun _ => []))
        (PowerWrapper.init ComponentCategory.battery none)).power_distributing_actor = none ∧
      (PowerWrapper.start (ComponentGraph.mk (fun _ => []))
        (PowerWrapper.init ComponentCategory.battery none)).started = false ∧
      (PowerWrapper.start (ComponentGraph.mk (fun _ => []))
        (PowerWrapper.init ComponentCategory.battery none)).warnings =
        [LogMessage.no_components_power_distributing ComponentCategory.battery,
          LogMessage.no_components_power_managing ComponentCategory.battery]) :=
  ⟨rfl, power_wrapper_start_missing_category (ComponentGraph.mk (fun _ => []))
    ComponentCategory.battery none rfl⟩

/-- C2.  The core supplies the timing configuration explicitly at every
constructor call site: the example tracker construction passes
`max_data_age_sec = 5` and `max_blocking_duration_sec = 30` explicitly, the
wrapper stores the module's wait-for-data constant, and whenever
`start_power_distributing_actor` constructs the distributing actor it
passes `wait_for_data_sec` explicitly from the wrapper's stored value — the
constructed actor never gets that field from anywhere else. -/
theorem required_configuration_supplied_explicitly :
    (∀ ids : List Nat,
      (example_batteries_status ids).max_data_age_sec = 5 ∧
      (example_batteries_status ids).max_blocking_duration_sec = 30) ∧
    (∀ (cat : ComponentCategory) (ct : Option ComponentType),
      (PowerWrapper.init cat ct).pd_wait_for_data_sec =
        POWER_DISTRIBUTING_ACTOR_WAIT_FOR_DATA_SEC) ∧
    (∀ (g : ComponentGraph) (s : PowerWrapper) (a : PowerDistributingActor),
      (PowerWrapper.start_power_distributing_actor g s).power_distributing_actor =
          some a →
        s.power_distributing_actor = some a ∨
          a.wait_for_data_sec = s.pd_wait_for_data_sec) := by
  refine ⟨fun ids => ⟨rfl, rfl⟩, fun cat ct => rfl, ?_⟩
  intro g s a ha
  cases hd : s.power_distributing_actor with
  | some b =>
    left
    rw [PowerWrapper.start_power_distributing_actor, hd] at ha
    simp at ha
    exact hd.symm.trans ha
  | none =>
    right
    rw [PowerWrapper.start_power_distributing_actor, hd] at ha
    by_cases he : (g.components s.component_category).isEmpty
    · simp [he, hd] at ha
    · simp [he] at ha
      rw [← ha]

/-- C3.  Only the component-status channel is created in resend-latest
mode — the requests, results, proposal and bounds-subscription channels are
not — and a resend-latest channel hands every newly created receiver the
most recently published message before anything published later, while a
channel without the flag hands new receivers nothing. -/
theorem status_channel_resend_latest :
    (∀ (cat : ComponentCategory) (ct : Option ComponentType),
      (PowerWrapper.init cat ct).status_channel.resend_latest = true ∧
      (PowerWrapper.init cat ct).power_distribution_requests_channel.resend_latest = false ∧
      (PowerWrapper.init cat ct).power_distribution_results_channel.resend_latest = false ∧
      (PowerWrapper.init cat ct).proposal_channel.resend_latest = false ∧
      (PowerWrapper.init cat ct).bounds_subscription_channel.resend_latest = false) ∧
    (∀ (M : Type) (m : M) (l : List (List M)),
      (BroadcastState.mk true (some m) l).new_receiver_queue = [m]) ∧
    (∀ (M : Type) (lt : Option M) (l : List (List M)),
      (BroadcastState.mk false lt l).new_receiver_queue = []) ∧
    (∀ (M : Type) (m x : M) (l : List (List M)),
      ((BroadcastState.mk true (some m) l).new_receiver.publish x).receivers =
        l.map (fun q => q ++ [x]) ++ [[m, x]]) := by
  refine ⟨fun cat ct => ⟨rfl, rfl, rfl, rfl, rfl⟩, fun M m l => rfl, fun M lt l => rfl, ?_⟩
  intro M m x l
  simp [BroadcastState.publish, BroadcastState.new_receiver,
    BroadcastState.new_receiver_queue]

/-- C8.  Starting from a BLOCKED state with deadline `blocked_until`, as
long as every observation happens before the deadline the tracker keeps the
component BLOCKED with that same deadline — it is never classified WORKING
before `blocked_until` — and whenever a WORKING component is blocked the
deadline is set to `now + max_blocking_duration_sec`. -/
theorem blocked_component_respects_blocked_until (cfg : TrackerConfig)
    (bu : Int) (inputs : List TrackerInput)
    (h : ∀ inp ∈ inputs, inp.now < bu) :
    (∀ s ∈ tracker_run cfg (ComponentState.blocked bu) inputs,
      s = ComponentState.blocked bu) ∧
    (∀ inp : TrackerInput, should_block cfg inp = true →
      tracker_step cfg ComponentState.working inp =
        ComponentState.blocked (inp.now + cfg.max_blocking_duration_sec)) := by
  constructor
  · induction inputs with
    | nil => intro s hs; simp [tracker_run] at hs
    | cons i rest ih =>
      intro s hs
      have hi : i.now < bu := h i (List.mem_cons_self i rest)
      rw [tracker_run, tracker_step_blocked cfg bu i hi] at hs
      rcases List.mem_cons.mp hs with h1 | h2
      · exact h1
      · exact ih (fun j hj => h j (List.mem_cons_of_mem i hj)) s h2
  · intro inp hb
    simp [tracker_step, hb]

theorem blocked_component_respects_blocked_until_witness :
    (∀ inp ∈ [TrackerInput.mk 1 0 true, TrackerInput.mk 5 5 false],
      inp.now < (10 : Int)) ∧
    ((∀ s ∈ tracker_run (TrackerConfig.mk 3 30) (ComponentState.blocked 10)
        [TrackerInput.mk 1 0 true, TrackerInput.mk 5 5 false],
      s = ComponentState.blocked 10) ∧
    (∀ inp : TrackerInput, should_block (TrackerConfig.mk 3 30) inp = true →
      tracker_step (TrackerConfig.mk 3 30) ComponentState.working inp =
        ComponentState.blocked (inp.now + (TrackerConfig.mk 3 30).max_blocking_duration_sec))) :=
  ⟨by decide, blocked_component_respects_blocked_until (TrackerConfig.mk 3 30) 10
    [TrackerInput.mk 1 0 true, TrackerInput.mk 5 5 false] (by decide)⟩

/-- A reachable fully-started wrapper: `start` on a fresh battery wrapper
over a graph that has a battery. -/
def started_wrapper : PowerWrapper :=
  PowerWrapper.start (ComponentGraph.mk (fun _ => [8]))
    (PowerWrapper.init ComponentCategory.battery none)

/-- C9.  `start` is idempotent: on an already-started wrapper it returns the
state unchanged (no new actor is created), and each internal
start-this-actor step likewise returns its input unchanged whenever the
corresponding actor already exists. -/
theorem power_wrapper_start_idempotent (g : ComponentGraph) (s : PowerWrapper)
    (h : s.started = true) :
    PowerWrapper.start g s = s ∧
    (∀ (g2 : ComponentGraph) (t : PowerWrapper),
      t.power_managing_actor.isSome = true →
      PowerWrapper.start_power_managing_actor g2 t = t) ∧
    (∀ (g2 : ComponentGraph) (t : PowerWrapper),
      t.power_distributing_actor.isSome = true →
      PowerWrapper.start_power_distributing_actor g2 t = t) := by
  refine ⟨by simp [PowerWrapper.start, h], ?_, ?_⟩
  · intro g2 t ht
    cases hm : t.power_managing_actor with
    | none => rw [hm] at ht; simp at ht
    | some a => rw [PowerWrapper.start_power_managing_actor, hm]
  · intro g2 t ht
    cases hm : t.power_distributing_actor with
    | none => rw [hm] at ht; simp at ht
    | some a => rw [PowerWrapper.start_power_distributing_actor, hm]

theorem power_wrapper_start_idempotent_witness :
    started_wrapper.started = true ∧
    (PowerWrapper.start (ComponentGraph.mk (fun _ => [8])) started_wrapper =
        started_wrapper ∧
      (∀ (g2 : ComponentGraph) (t : PowerWrapper),
        t.power_managing_actor.isSome = true →
        PowerWrapper.start_power_managing_actor g2 t = t) ∧
      (∀ (g2 : ComponentGraph) (t : PowerWrapper),
        t.power_distributing_actor.isSome = true →
        PowerWrapper.start_power_distributing_actor g2 t = t)) :=
  ⟨by decide, power_wrapper_start_idempotent (ComponentGraph.mk (fun _ => [8]))
    started_wrapper (by decide)⟩

/-- C10.  `stop` on a wrapper whose actors were never started performs no
stop action and returns normally; in general `stop` never modifies the
wrapper's fields (so all channel fields are unchanged), stops an actor only
when its reference exists, and when both exist it stops the power
distributing actor before the power managing actor. -/
theorem power_wrapper_stop_never_started (s : PowerWrapper)
    (h1 : s.power_distributing_actor = none)
    (h2 : s.power_managing_actor = none) :
    PowerWrapper.stop s = (s, []) ∧
    (∀ t : PowerWrapper, (PowerWrapper.stop t).1 = t) ∧
    (∀ t : PowerWrapper,
      t.power_distributing_actor.isSome = true →
      t.power_managing_actor.isSome = true →
      (PowerWrapper.stop t).2 =
        [StopEvent.stop_power_distributing_actor,
          StopEvent.stop_power_managing_actor]) ∧
    (∀ t : PowerWrapper, t.power_distributing_actor = none →
      StopEvent.stop_power_distributing_actor ∉ (PowerWrapper.stop t).2) ∧
    (∀ t : PowerWrapper, t.power_managing_actor = none →
      StopEvent.stop_power_managing_actor ∉ (PowerWrapper.stop t).2) := by
  refine ⟨by simp [PowerWrapper.stop, h1, h2], fun t => rfl, ?_, ?_, ?_⟩
  · intro t hd hm
    simp [PowerWrapper.stop, hd, hm]
  · intro t hd
    simp [PowerWrapper.stop, hd]
  · intro t hm
    simp [PowerWrapper.stop, hm]

theorem power_wrapper_stop_never_started_witness :
    (PowerWrapper.init ComponentCategory.battery none).power_distributing_actor = none ∧
    (PowerWrapper.init ComponentCategory.battery none).power_managing_actor = none ∧
    (PowerWrapper.stop (PowerWrapper.init ComponentCategory.battery none) =
        (PowerWrapper.init ComponentCategory.battery none, []) ∧
      (∀ t : PowerWrapper, (PowerWrapper.stop t).1 = t) ∧
      (∀ t : PowerWrapper,
        t.power_distributing_actor.isSome = true →
        t.power_managing_actor.isSome = true →
        (PowerWrapper.stop t).2 =
          [StopEvent.stop_power_distributing_actor,
            StopEvent.stop_power_managing_actor]) ∧
      (∀ t : PowerWrapper, t.power_distributing_actor = none →
        StopEvent.stop_power_distributing_actor ∉ (PowerWrapper.stop t).2) ∧
      (∀ t : PowerWrapper, t.power_managing_actor = none →
        StopEvent.stop_power_managing_actor ∉ (PowerWrapper.stop t).2)) :=
  ⟨rfl, rfl, power_wrapper_stop_never_started
    (PowerWrapper.init ComponentCategory.battery none) rfl rfl⟩
